import Mathlib

/-!
Verification of the GoMeshController USB Bluetooth-mesh driver.

The development shallowly embeds the `mesh` package: the opcode constants,
the pure frame-building code of every command method, the single-retry write
path `WriteData`, and one iteration of the dispatch loop `Read`.  Go byte
slices are embedded as `List Nat` (each element meant to be `< 256`),
`uint16` values as `Nat` (meant to be `< 65536`), and a Go index/slice
expression that can panic is embedded partially, with `Option`: `none`
models an index-out-of-range panic.
-/

namespace GoMesh

/-! ## Opcode constants (source: `const` block of the mesh package) -/

def OpSetup : Nat := 0x00
def OpSetupStatus : Nat := 0x01
def OpAddKey : Nat := 0x02
def OpAddKeyStatus : Nat := 0x03
def OpUnprovisionedBeacon : Nat := 0x04
def OpProvision : Nat := 0x05
def OpNodeAdded : Nat := 0x06
def OpConfigureNode : Nat := 0x07
def OpConfigureNodeStatus : Nat := 0x08
def OpSendMessage : Nat := 0x09
def OpReset : Nat := 0x10
def OpReboot : Nat := 0x11
def OpNodeReset : Nat := 0x12
def OpState : Nat := 0x13
def OpConfigureElem : Nat := 0x14
def OpConfigureElemStatus : Nat := 0x15
def OpSendRecallMessage : Nat := 0x16
def OpSendStoreMessage : Nat := 0x17
def OpSendDeleteMessage : Nat := 0x18
def OpSendBindMessage : Nat := 0x19
def OpEvent : Nat := 0x20

/-- The list of all opcode values the mesh package defines. -/
def knownOpcodes : List Nat :=
  [OpSetup, OpSetupStatus, OpAddKey, OpAddKeyStatus, OpUnprovisionedBeacon,
   OpProvision, OpNodeAdded, OpConfigureNode, OpConfigureNodeStatus,
   OpSendMessage, OpReset, OpReboot, OpNodeReset, OpState, OpConfigureElem,
   OpConfigureElemStatus, OpSendRecallMessage, OpSendStoreMessage,
   OpSendDeleteMessage, OpSendBindMessage, OpEvent]

/-! ## 16-bit little-endian codec primitives

`toByteSlice` embeds the source function of the same name:
`binary.LittleEndian.PutUint16` stores `byte(v)` then `byte(v >> 8)`;
Go `byte(x)` truncation is `% 256`.  `uint16LE` embeds
`binary.LittleEndian.Uint16(b)` = `uint16(b[0]) | uint16(b[1])<<8`. -/

def toByteSlice (imput : Nat) : List Nat :=
  [imput % 256, imput / 256 % 256]

def uint16LE (lo hi : Nat) : Nat := lo + 256 * hi

/-! ## Frames built by the command methods

Each `...Frame` definition embeds the `parms` value a command method of the
source builds and hands to `WriteData`: the opcode byte followed by the
appended field bytes, in source order. -/

def SetupFrame : List Nat := [OpSetup]

def AddKeyFrame (appIdx : Nat) : List Nat :=
  [OpAddKey] ++ toByteSlice appIdx

def ProvisionFrame (uuid : List Nat) : List Nat :=
  [OpProvision] ++ uuid

def ConfigureNodeFrame (addr appIdx : Nat) : List Nat :=
  [OpConfigureNode] ++ toByteSlice addr ++ toByteSlice appIdx

def ConfigureElemFrame (groupAddr nodeAddr elemAddr appIdx : Nat) : List Nat :=
  [OpConfigureElem] ++ toByteSlice groupAddr ++ toByteSlice nodeAddr ++
    toByteSlice elemAddr ++ toByteSlice appIdx

def SendMessageFrame (state addr appIdx : Nat) : List Nat :=
  [OpSendMessage] ++ [state] ++ toByteSlice addr ++ toByteSlice appIdx

def SendRecallMessageFrame (sceneNumber addr appIdx : Nat) : List Nat :=
  [OpSendRecallMessage] ++ toByteSlice sceneNumber ++ toByteSlice addr ++
    toByteSlice appIdx

def SendStoreMessageFrame (sceneNumber addr appIdx : Nat) : List Nat :=
  [OpSendStoreMessage] ++ toByteSlice sceneNumber ++ toByteSlice addr ++
    toByteSlice appIdx

def SendDeleteMessageFrame (sceneNumber addr appIdx : Nat) : List Nat :=
  [OpSendDeleteMessage] ++ toByteSlice sceneNumber ++ toByteSlice addr ++
    toByteSlice appIdx

def SendBindMessageFrame (sceneNumber addr appIdx : Nat) : List Nat :=
  [OpSendBindMessage] ++ toByteSlice sceneNumber ++ toByteSlice addr ++
    toByteSlice appIdx

def ResetNodeFrame (addr : Nat) : List Nat :=
  [OpNodeReset] ++ toByteSlice addr

def ResetFrame : List Nat := [OpReset]

def RebootFrame : List Nat := [OpReboot]

/-! ## The write path (`WriteData`)

The transport's outcome for the two possible bulk writes of one `WriteData`
call is given as two booleans (`true` = the `epOut.Write` call returns no
error).  The embedding returns the error result of the call (`none` =
success, `some msg` = the `errors.New(msg)` value returned) together with
the exact sequence of observable transport/timing events it performs. -/

inductive WriteEvent : Type
  | write (data : List Nat) (ok : Bool)
  | sleep (ms : Nat)
  deriving DecidableEq, Repr

def WriteData (data : List Nat) (ok1 ok2 : Bool) :
    Option String × List WriteEvent :=
  if ok1 then
    (none, [WriteEvent.write data true])
  else if ok2 then
    (none, [WriteEvent.write data false, WriteEvent.sleep 200,
            WriteEvent.write data true])
  else
    (some "Write failed", [WriteEvent.write data false, WriteEvent.sleep 200,
                           WriteEvent.write data false])

/-- Count the write attempts in an event trace. -/
def countWrites : List WriteEvent → Nat
  | [] => 0
  | WriteEvent.write _ _ :: rest => 1 + countWrites rest
  | WriteEvent.sleep _ :: rest => countWrites rest

/-- The payloads of the write attempts in an event trace, in order. -/
def writtenPayloads : List WriteEvent → List (List Nat)
  | [] => []
  | WriteEvent.write d _ :: rest => d :: writtenPayloads rest
  | WriteEvent.sleep _ :: rest => writtenPayloads rest

/-- `Provision` embeds the source method: build `[OpProvision] ++ uuid`
(no validation of the uuid whatsoever) and hand it to `WriteData`. -/
def Provision (uuid : List Nat) (ok1 ok2 : Bool) :
    Option String × List WriteEvent :=
  WriteData (ProvisionFrame uuid) ok1 ok2

/-! ## The dispatch loop (`Read`)

`Read` loops forever: read one packet into a fresh `MaxPacketSize` buffer,
then run six successive `if buf[0] == ...` statements, each invoking one of
the caller-supplied handler functions with fields sliced from the buffer.
The embedding records the handler invocations of one loop iteration as a
list of `HandlerCall` values in invocation order; it returns `none` when
the iteration would panic with an index or slice out of range. -/

inductive HandlerCall : Type
  | setupStatus
  | addKeyStatus (appIdx : Nat)
  | unprovisionedBeacon (uuid : List Nat)
  | nodeAdded (addr : Nat)
  | state (addr : Nat) (st : Nat)
  | event (addr : Nat)
  deriving DecidableEq, Repr

/-- One iteration of the body of the `for` loop in `Read`, after the packet
has been read into `buf`.  `buf[1:3]` together with
`binary.LittleEndian.Uint16` needs indices 1 and 2, `buf[1:17]` needs the
buffer length to be at least 17, `buf[3]` needs index 3; a fresh `make`
slice has capacity equal to its length, so any shortfall panics. -/
def readIteration (buf : List Nat) : Option (List HandlerCall) := do
  let b0 ← buf[0]?
  let c1 : List HandlerCall :=
    if b0 = OpSetupStatus then [HandlerCall.setupStatus] else []
  let c2 ←
    if b0 = OpAddKeyStatus then do
      let lo ← buf[1]?
      let hi ← buf[2]?
      pure [HandlerCall.addKeyStatus (uint16LE lo hi)]
    else pure []
  let c3 ←
    if b0 = OpUnprovisionedBeacon then
      if 17 ≤ buf.length then
        pure [HandlerCall.unprovisionedBeacon ((buf.drop 1).take 16)]
      else none
    else pure []
  let c4 ←
    if b0 = OpNodeAdded then do
      let lo ← buf[1]?
      let hi ← buf[2]?
      pure [HandlerCall.nodeAdded (uint16LE lo hi)]
    else pure []
  let c5 ←
    if b0 = OpState then do
      let lo ← buf[1]?
      let hi ← buf[2]?
      let st ← buf[3]?
      pure [HandlerCall.state (uint16LE lo hi) st]
    else pure []
  let c6 ←
    if b0 = OpEvent then do
      let lo ← buf[1]?
      let hi ← buf[2]?
      pure [HandlerCall.event (uint16LE lo hi)]
    else pure []
  pure (c1 ++ c2 ++ c3 ++ c4 ++ c5 ++ c6)

/-- The dispatch loop run over a finite prefix of arriving packets, in
arrival order: the loop body is `readIteration`, and the handler calls of
successive iterations are concatenated in the order they happen. -/
def dispatchMany : List (List Nat) → Option (List HandlerCall)
  | [] => pure []
  | buf :: rest => do
      let cs ← readIteration buf
      let more ← dispatchMany rest
      pure (cs ++ more)

/-- Modelled from the spec: the dispatch table of section 4.3 — SetupStatus
invokes `onSetupStatus()`, AddKeyStatus invokes `onAddKeyStatus(appIdx)`,
UnprovisionedBeacon invokes `onUnprovisionedBeacon(uuid)`, NodeAdded
invokes `onNodeAdded(addr)`, State invokes `onState(addr, state)`, Event
invokes `onEvent(addr)`, and any other opcode is a no-op; 16-bit fields are
little-endian per the section 6 table.  Used as the specification side of
the refinement claim about the dispatcher. -/
def dispatchSpec (buf : List Nat) : List HandlerCall :=
  let b0 := buf.getD 0 0
  if b0 = OpSetupStatus then [HandlerCall.setupStatus]
  else if b0 = OpAddKeyStatus then
    [HandlerCall.addKeyStatus (uint16LE (buf.getD 1 0) (buf.getD 2 0))]
  else if b0 = OpUnprovisionedBeacon then
    [HandlerCall.unprovisionedBeacon ((buf.drop 1).take 16)]
  else if b0 = OpNodeAdded then
    [HandlerCall.nodeAdded (uint16LE (buf.getD 1 0) (buf.getD 2 0))]
  else if b0 = OpState then
    [HandlerCall.state (uint16LE (buf.getD 1 0) (buf.getD 2 0)) (buf.getD 3 0)]
  else if b0 = OpEvent then
    [HandlerCall.event (uint16LE (buf.getD 1 0) (buf.getD 2 0))]
  else []

/-! ## Read-error behavior of the dispatch loop

The gousb read can fail with a transient error (buffer overflow, no-device,
I/O) or a fatal one (device detached).  In the source, the result of
`controller.epIn.Read(buf)` is discarded — the error-handling block is
commented out — so the iteration behaves identically whatever the read
outcome was: the buffer is dispatched and the loop goes on. -/

inductive ReadErr : Type
  | overflow
  | noDevice
  | io
  | detached
  deriving DecidableEq, Repr

inductive IterOutcome : Type
  | continues (calls : List HandlerCall)
  | terminated (msg : String)
  | fault
  deriving DecidableEq, Repr

def IterOutcome.isTerminated : IterOutcome → Bool
  | IterOutcome.terminated _ => true
  | _ => false

/-- One iteration of the `Read` loop including the transport read outcome
`e` (`none` = the read succeeded).  The source ignores `e` entirely and
dispatches the buffer unconditionally; the loop has no exit, so no
iteration ever returns an error to `Read`'s caller. -/
def readIterationWithErr (e : Option ReadErr) (buf : List Nat) :
    IterOutcome :=
  match e, readIteration buf with
  | _, some cs => IterOutcome.continues cs
  | _, none => IterOutcome.fault

/-! ## Typed frames and the full codec

One constructor per opcode of the section 6 wire table, carrying that
opcode's fields.  `encodeFrame` reuses the command methods' frame builders
for the outbound opcodes; the source has no encoder for the inbound
(device-to-host) opcodes, so those cases are modelled from the spec's wire
table with the same primitives.  Symmetrically, `decodeFrame` uses exactly
the field slicing the `Read` loop performs for the six dispatched inbound
opcodes, and is modelled from the spec's wire table for the rest. -/

inductive Frame : Type
  | setup
  | setupStatus
  | addKey (appIdx : Nat)
  | addKeyStatus (appIdx : Nat)
  | unprovisionedBeacon (uuid : List Nat)
  | provision (uuid : List Nat)
  | nodeAdded (addr : Nat)
  | configureNode (addr appIdx : Nat)
  | configureNodeStatus
  | sendMessage (st addr appIdx : Nat)
  | reset
  | reboot
  | nodeReset (addr : Nat)
  | state (addr st : Nat)
  | configureElem (groupAddr nodeAddr elemAddr appIdx : Nat)
  | configureElemStatus
  | sendRecallMessage (sceneNumber addr appIdx : Nat)
  | sendStoreMessage (sceneNumber addr appIdx : Nat)
  | sendDeleteMessage (sceneNumber addr appIdx : Nat)
  | sendBindMessage (sceneNumber addr appIdx : Nat)
  | event (addr : Nat)
  deriving DecidableEq, Repr

/-- Encode a typed frame to wire bytes.  Outbound constructors delegate to
the source's frame builders; inbound constructors (`setupStatus`,
`addKeyStatus`, `unprovisionedBeacon`, `nodeAdded`, `state`, `event`, and
the reserved status opcodes) are modelled from the spec's section 6 wire
table, 16-bit fields little-endian via `toByteSlice`. -/
def encodeFrame : Frame → List Nat
  | Frame.setup => SetupFrame
  | Frame.setupStatus => [OpSetupStatus]
  | Frame.addKey i => AddKeyFrame i
  | Frame.addKeyStatus i => [OpAddKeyStatus] ++ toByteSlice i
  | Frame.unprovisionedBeacon u => [OpUnprovisionedBeacon] ++ u
  | Frame.provision u => ProvisionFrame u
  | Frame.nodeAdded a => [OpNodeAdded] ++ toByteSlice a
  | Frame.configureNode a i => ConfigureNodeFrame a i
  | Frame.configureNodeStatus => [OpConfigureNodeStatus]
  | Frame.sendMessage s a i => SendMessageFrame s a i
  | Frame.reset => ResetFrame
  | Frame.reboot => RebootFrame
  | Frame.nodeReset a => ResetNodeFrame a
  | Frame.state a s => [OpState] ++ toByteSlice a ++ [s]
  | Frame.configureElem g n e i => ConfigureElemFrame g n e i
  | Frame.configureElemStatus => [OpConfigureElemStatus]
  | Frame.sendRecallMessage s a i => SendRecallMessageFrame s a i
  | Frame.sendStoreMessage s a i => SendStoreMessageFrame s a i
  | Frame.sendDeleteMessage s a i => SendDeleteMessageFrame s a i
  | Frame.sendBindMessage s a i => SendBindMessageFrame s a i
  | Frame.event a => [OpEvent] ++ toByteSlice a

/-- Decode wire bytes to a typed frame.  For the six inbound opcodes the
`Read` loop dispatches, the field extraction is exactly the loop's:
`uint16LE` of bytes 1 and 2, byte 3 for the state value, bytes 1 to 16 for
a uuid.  The remaining opcodes have no decoder in the source and are
modelled from the spec's section 6 wire table.  An unrecognized opcode
decodes to `none` (ignored), never an error. -/
def decodeFrame (b : List Nat) : Option Frame := do
  let b0 ← b[0]?
  if b0 = OpSetup then pure Frame.setup
  else if b0 = OpSetupStatus then pure Frame.setupStatus
  else if b0 = OpAddKey then do
    let lo ← b[1]?
    let hi ← b[2]?
    pure (Frame.addKey (uint16LE lo hi))
  else if b0 = OpAddKeyStatus then do
    let lo ← b[1]?
    let hi ← b[2]?
    pure (Frame.addKeyStatus (uint16LE lo hi))
  else if b0 = OpUnprovisionedBeacon then
    if 17 ≤ b.length then pure (Frame.unprovisionedBeacon ((b.drop 1).take 16))
    else none
  else if b0 = OpProvision then
    if 17 ≤ b.length then pure (Frame.provision ((b.drop 1).take 16))
    else none
  else if b0 = OpNodeAdded then do
    let lo ← b[1]?
    let hi ← b[2]?
    pure (Frame.nodeAdded (uint16LE lo hi))
  else if b0 = OpConfigureNode then do
    let lo ← b[1]?
    let hi ← b[2]?
    let lo2 ← b[3]?
    let hi2 ← b[4]?
    pure (Frame.configureNode (uint16LE lo hi) (uint16LE lo2 hi2))
  else if b0 = OpConfigureNodeStatus then pure Frame.configureNodeStatus
  else if b0 = OpSendMessage then do
    let s ← b[1]?
    let lo ← b[2]?
    let hi ← b[3]?
    let lo2 ← b[4]?
    let hi2 ← b[5]?
    pure (Frame.sendMessage s (uint16LE lo hi) (uint16LE lo2 hi2))
  else if b0 = OpReset then pure Frame.reset
  else if b0 = OpReboot then pure Frame.reboot
  else if b0 = OpNodeReset then do
    let lo ← b[1]?
    let hi ← b[2]?
    pure (Frame.nodeReset (uint16LE lo hi))
  else if b0 = OpState then do
    let lo ← b[1]?
    let hi ← b[2]?
    let s ← b[3]?
    pure (Frame.state (uint16LE lo hi) s)
  else if b0 = OpConfigureElem then do
    let lo ← b[1]?
    let hi ← b[2]?
    let lo2 ← b[3]?
    let hi2 ← b[4]?
    let lo3 ← b[5]?
    let hi3 ← b[6]?
    let lo4 ← b[7]?
    let hi4 ← b[8]?
    pure (Frame.configureElem (uint16LE lo hi) (uint16LE lo2 hi2)
      (uint16LE lo3 hi3) (uint16LE lo4 hi4))
  else if b0 = OpConfigureElemStatus then pure Frame.configureElemStatus
  else if b0 = OpSendRecallMessage then do
    let lo ← b[1]?
    let hi ← b[2]?
    let lo2 ← b[3]?
    let hi2 ← b[4]?
    let lo3 ← b[5]?
    let hi3 ← b[6]?
    pure (Frame.sendRecallMessage (uint16LE lo hi) (uint16LE lo2 hi2)
      (uint16LE lo3 hi3))
  else if b0 = OpSendStoreMessage then do
    let lo ← b[1]?
    let hi ← b[2]?
    let lo2 ← b[3]?
    let hi2 ← b[4]?
    let lo3 ← b[5]?
    let hi3 ← b[6]?
    pure (Frame.sendStoreMessage (uint16LE lo hi) (uint16LE lo2 hi2)
      (uint16LE lo3 hi3))
  else if b0 = OpSendDeleteMessage then do
    let lo ← b[1]?
    let hi ← b[2]?
    let lo2 ← b[3]?
    let hi2 ← b[4]?
    let lo3 ← b[5]?
    let hi3 ← b[6]?
    pure (Frame.sendDeleteMessage (uint16LE lo hi) (uint16LE lo2 hi2)
      (uint16LE lo3 hi3))
  else if b0 = OpSendBindMessage then do
    let lo ← b[1]?
    let hi ← b[2]?
    let lo2 ← b[3]?
    let hi2 ← b[4]?
    let lo3 ← b[5]?
    let hi3 ← b[6]?
    pure (Frame.sendBindMessage (uint16LE lo hi) (uint16LE lo2 hi2)
      (uint16LE lo3 hi3))
  else if b0 = OpEvent then do
    let lo ← b[1]?
    let hi ← b[2]?
    pure (Frame.event (uint16LE lo hi))
  else none

/-- Field validity: 16-bit fields fit in 16 bits, byte fields in 8 bits,
uuid fields are 16 bytes. -/
def Frame.valid : Frame → Prop
  | Frame.setup => True
  | Frame.setupStatus => True
  | Frame.addKey i => i < 65536
  | Frame.addKeyStatus i => i < 65536
  | Frame.unprovisionedBeacon u => u.length = 16
  | Frame.provision u => u.length = 16
  | Frame.nodeAdded a => a < 65536
  | Frame.configureNode a i => a < 65536 ∧ i < 65536
  | Frame.configureNodeStatus => True
  | Frame.sendMessage s a i => s < 256 ∧ a < 65536 ∧ i < 65536
  | Frame.reset => True
  | Frame.reboot => True
  | Frame.nodeReset a => a < 65536
  | Frame.state a s => a < 65536 ∧ s < 256
  | Frame.configureElem g n e i =>
      g < 65536 ∧ n < 65536 ∧ e < 65536 ∧ i < 65536
  | Frame.configureElemStatus => True
  | Frame.sendRecallMessage s a i => s < 65536 ∧ a < 65536 ∧ i < 65536
  | Frame.sendStoreMessage s a i => s < 65536 ∧ a < 65536 ∧ i < 65536
  | Frame.sendDeleteMessage s a i => s < 65536 ∧ a < 65536 ∧ i < 65536
  | Frame.sendBindMessage s a i => s < 65536 ∧ a < 65536 ∧ i < 65536
  | Frame.event a => a < 65536

instance : DecidablePred Frame.valid := by
  intro f
  cases f <;> simp only [Frame.valid] <;> infer_instance

/-! ## Helper lemmas -/

/-- Reading back the two bytes `PutUint16` stores recovers any 16-bit
value. -/
theorem uint16LE_toByteSlice (v : Nat) (h : v < 65536) :
    uint16LE (v % 256) (v / 256 % 256) = v := by
  simp only [uint16LE]
  omega

/-! ## Claim theorems -/

/-- Claim C4: for every `v` in `[0, 65535]`, encoding a 16-bit field
produces exactly the two bytes `[v &&& 0xFF, (v >>> 8) &&& 0xFF]`, in that
order (little-endian). -/
theorem toByteSlice_littleEndian (v : Nat) (_h : v < 65536) :
    toByteSlice v = [v &&& 0xFF, (v >>> 8) &&& 0xFF] := by
  have h1 : v &&& 255 = v % 256 := Nat.and_pow_two_sub_one_eq_mod v 8
  have h2 : v >>> 8 = v / 256 := by
    simpa using Nat.shiftRight_eq_div_pow v 8
  have h3 : v / 256 &&& 255 = v / 256 % 256 :=
    Nat.and_pow_two_sub_one_eq_mod (v / 256) 8
  simp [toByteSlice, h1, h2, h3]

/-- Witness for C4 at `v = 0xABCD`. -/
theorem toByteSlice_littleEndian_witness :
    0xABCD < 65536 ∧
      toByteSlice 0xABCD = [0xABCD &&& 0xFF, (0xABCD >>> 8) &&& 0xFF] :=
  ⟨by decide, toByteSlice_littleEndian 0xABCD (by decide)⟩

/-- Claim C2: for every frame passed to the write path, a successful first
transport write returns success after exactly one write attempt; a failed
first write is followed by a fixed 200 ms sleep and exactly one retry,
returning success when the retry succeeds and the "Write failed" error when
it also fails, with exactly two write attempts and no further retries in
either case. -/
theorem WriteData_retry (data : List Nat) (ok1 ok2 : Bool) :
    countWrites (WriteData data ok1 ok2).2 = (if ok1 then 1 else 2) ∧
    ((WriteData data ok1 ok2).1 = none ↔ (ok1 = true ∨ ok2 = true)) ∧
    ((WriteData data ok1 ok2).1 = some "Write failed" ↔
      (ok1 = false ∧ ok2 = false)) ∧
    (ok1 = true →
      (WriteData data ok1 ok2).2 = [WriteEvent.write data true]) ∧
    (ok1 = false → WriteEvent.sleep 200 ∈ (WriteData data ok1 ok2).2) := by
  cases ok1 <;> cases ok2 <;>
    simp [WriteData, countWrites]

/-- Witness for C2: with a failing first write and a succeeding retry on
the frame `[0x09]`, the 200 ms backoff sleep is observed in the trace. -/
theorem WriteData_retry_witness :
    WriteEvent.sleep 200 ∈ (WriteData [0x09] false true).2 :=
  (WriteData_retry [0x09] false true).2.2.2.2 rfl

/-- Claim C3: every command method builds the opcode byte followed by its
fields in the mandated order, with total length exactly one plus the sum of
the field widths; in particular `SendMessage(0x00, 0x000A, 0x0000)` builds
`[0x09, 0x00, 0x0A, 0x00, 0x00, 0x00]` and `Provision` of the given
16-byte uuid builds the 17-byte frame `[0x05]` followed by the uuid
verbatim. -/
theorem commandFrames_shape (st addr appIdx sceneNumber groupAddr nodeAddr
    elemAddr : Nat) (uuid : List Nat) :
    (SetupFrame.length = 1 ∧ SetupFrame.head? = some OpSetup) ∧
    ((AddKeyFrame appIdx).length = 3 ∧
      (AddKeyFrame appIdx).head? = some OpAddKey) ∧
    ((ProvisionFrame uuid).length = 1 + uuid.length ∧
      (ProvisionFrame uuid).head? = some OpProvision) ∧
    ((ConfigureNodeFrame addr appIdx).length = 5 ∧
      (ConfigureNodeFrame addr appIdx).head? = some OpConfigureNode) ∧
    ((ConfigureElemFrame groupAddr nodeAddr elemAddr appIdx).length = 9 ∧
      (ConfigureElemFrame groupAddr nodeAddr elemAddr appIdx).head? =
        some OpConfigureElem) ∧
    ((SendMessageFrame st addr appIdx).length = 6 ∧
      (SendMessageFrame st addr appIdx).head? = some OpSendMessage) ∧
    ((SendRecallMessageFrame sceneNumber addr appIdx).length = 7 ∧
      (SendRecallMessageFrame sceneNumber addr appIdx).head? =
        some OpSendRecallMessage) ∧
    ((SendStoreMessageFrame sceneNumber addr appIdx).length = 7 ∧
      (SendStoreMessageFrame sceneNumber addr appIdx).head? =
        some OpSendStoreMessage) ∧
    ((SendDeleteMessageFrame sceneNumber addr appIdx).length = 7 ∧
      (SendDeleteMessageFrame sceneNumber addr appIdx).head? =
        some OpSendDeleteMessage) ∧
    ((SendBindMessageFrame sceneNumber addr appIdx).length = 7 ∧
      (SendBindMessageFrame sceneNumber addr appIdx).head? =
        some OpSendBindMessage) ∧
    ((ResetNodeFrame addr).length = 3 ∧
      (ResetNodeFrame addr).head? = some OpNodeReset) ∧
    (ResetFrame.length = 1 ∧ ResetFrame.head? = some OpReset) ∧
    (RebootFrame.length = 1 ∧ RebootFrame.head? = some OpReboot) ∧
    SendMessageFrame 0x00 0x000A 0x0000 =
      [0x09, 0x00, 0x0A, 0x00, 0x00, 0x00] ∧
    ProvisionFrame
        [0x19, 0x8a, 0x1d, 0x0d, 0x7e, 0xd1, 0, 0, 0, 0, 0, 0, 0, 0, 0, 0] =
      [0x05, 0x19, 0x8a, 0x1d, 0x0d, 0x7e, 0xd1,
       0, 0, 0, 0, 0, 0, 0, 0, 0, 0] := by
  refine ⟨?_, ?_, ?_, ?_, ?_, ?_, ?_, ?_, ?_, ?_, ?_, ?_, ?_, ?_, ?_⟩ <;>
    simp [SetupFrame, AddKeyFrame, ProvisionFrame, ConfigureNodeFrame,
      ConfigureElemFrame, SendMessageFrame, SendRecallMessageFrame,
      SendStoreMessageFrame, SendDeleteMessageFrame, SendBindMessageFrame,
      ResetNodeFrame, ResetFrame, RebootFrame, toByteSlice, OpSetup,
      OpAddKey, OpProvision, OpConfigureNode, OpConfigureElem, OpSendMessage,
      OpSendRecallMessage, OpSendStoreMessage, OpSendDeleteMessage,
      OpSendBindMessage, OpNodeReset, OpReset, OpReboot, Nat.add_comm]

/-- Claim C10: `Provision` validates nothing about its uuid argument — for
every byte slice, of any length, every payload it hands to the transport is
`[0x05]` followed by the uuid verbatim, of length `1 + uuid.length`, and at
least one transmission attempt is made. -/
theorem Provision_noValidation (uuid : List Nat) (ok1 ok2 : Bool) :
    (∀ d ∈ writtenPayloads (Provision uuid ok1 ok2).2,
      d = OpProvision :: uuid ∧ d.length = 1 + uuid.length) ∧
    writtenPayloads (Provision uuid ok1 ok2).2 ≠ [] := by
  cases ok1 <;> cases ok2 <;>
    simp [Provision, WriteData, writtenPayloads, ProvisionFrame, OpProvision,
      Nat.add_comm]

/-- Witness for C10 at the empty uuid: the single transmitted payload is
the bare opcode byte `[0x05]`, of length `1 + 0`. -/
theorem Provision_noValidation_witness :
    [0x05] ∈ writtenPayloads (Provision [] true true).2 ∧
      ([0x05] = OpProvision :: ([] : List Nat) ∧
        ([0x05] : List Nat).length = 1 + ([] : List Nat).length) :=
  ⟨by decide, (Provision_noValidation [] true true).1 [0x05] (by decide)⟩

/-- Per buffer, the section 4.3 dispatch table fires at most one
handler. -/
theorem dispatchSpec_len_le_one (buf : List Nat) :
    (dispatchSpec buf).length ≤ 1 := by
  simp only [dispatchSpec]
  repeat' split
  all_goals simp

/-- On any buffer long enough for every slice the loop can take
(length at least 17), one `Read` iteration performs exactly the handler
calls the section 4.3 dispatch table prescribes. -/
theorem readIteration_eq_dispatchSpec (buf : List Nat)
    (h : 17 ≤ buf.length) :
    readIteration buf = some (dispatchSpec buf) := by
  rcases buf with _ | ⟨a, _ | ⟨b, _ | ⟨c, _ | ⟨d, t⟩⟩⟩⟩ <;> simp at h
  by_cases h1 : a = OpSetupStatus
  · subst h1
    simp [readIteration, dispatchSpec, OpSetupStatus, OpAddKeyStatus,
      OpUnprovisionedBeacon, OpNodeAdded, OpState, OpEvent]
  by_cases h2 : a = OpAddKeyStatus
  · subst h2
    simp [readIteration, dispatchSpec, OpSetupStatus, OpAddKeyStatus,
      OpUnprovisionedBeacon, OpNodeAdded, OpState, OpEvent]
  by_cases h3 : a = OpUnprovisionedBeacon
  · subst h3
    simp [readIteration, dispatchSpec, OpSetupStatus, OpAddKeyStatus,
      OpUnprovisionedBeacon, OpNodeAdded, OpState, OpEvent]
    omega
  by_cases h4 : a = OpNodeAdded
  · subst h4
    simp [readIteration, dispatchSpec, OpSetupStatus, OpAddKeyStatus,
      OpUnprovisionedBeacon, OpNodeAdded, OpState, OpEvent]
  by_cases h5 : a = OpState
  · subst h5
    simp [readIteration, dispatchSpec, OpSetupStatus, OpAddKeyStatus,
      OpUnprovisionedBeacon, OpNodeAdded, OpState, OpEvent]
  by_cases h6 : a = OpEvent
  · subst h6
    simp [readIteration, dispatchSpec, OpSetupStatus, OpAddKeyStatus,
      OpUnprovisionedBeacon, OpNodeAdded, OpState, OpEvent]
  simp [readIteration, dispatchSpec, h1, h2, h3, h4, h5, h6]

/-- Claim C5: an inbound buffer whose byte 0 is `0x20` (Event) and whose
bytes 1 and 2 are `0x0A` and `0x00` makes one dispatcher iteration invoke
the registered `onEvent` handler with address 10, and no other handler. -/
theorem event_dispatch (rest : List Nat) :
    readIteration (0x20 :: 0x0A :: 0x00 :: rest) =
      some [HandlerCall.event 10] := by
  simp [readIteration, OpSetupStatus, OpAddKeyStatus, OpUnprovisionedBeacon,
    OpNodeAdded, OpState, OpEvent, uint16LE]

/-- Claim C6: an inbound buffer whose byte 0 matches no known opcode makes
one dispatcher iteration invoke no handler and complete without an error:
an unrecognized opcode is a valid outcome, never a failure. -/
theorem unknown_opcode_ignored (b0 : Nat) (rest : List Nat)
    (h : b0 ∉ knownOpcodes) : readIteration (b0 :: rest) = some [] := by
  have g1 : ¬ b0 = OpSetupStatus := fun e => h (by rw [e]; decide)
  have g2 : ¬ b0 = OpAddKeyStatus := fun e => h (by rw [e]; decide)
  have g3 : ¬ b0 = OpUnprovisionedBeacon := fun e => h (by rw [e]; decide)
  have g4 : ¬ b0 = OpNodeAdded := fun e => h (by rw [e]; decide)
  have g5 : ¬ b0 = OpState := fun e => h (by rw [e]; decide)
  have g6 : ¬ b0 = OpEvent := fun e => h (by rw [e]; decide)
  rcases rest with _ | ⟨b, _ | ⟨c, _ | ⟨d, t⟩⟩⟩ <;>
    simp [readIteration, g1, g2, g3, g4, g5, g6]

/-- Witness for C6 at opcode `0xFF`: no handler call and no fault. -/
theorem unknown_opcode_ignored_witness :
    readIteration [0xFF] = some [] :=
  unknown_opcode_ignored 0xFF [] (by decide)

/-- Claim C7: per dispatcher iteration exactly the handler the section 4.3
table maps to the frame's opcode fires — never two handlers for one frame —
and a run of the loop over arriving frames performs the handler calls in
strict arrival order. -/
theorem dispatch_exactlyOne_inOrder (bufs : List (List Nat))
    (h : ∀ buf ∈ bufs, 17 ≤ buf.length) :
    dispatchMany bufs = some ((bufs.map dispatchSpec).flatten) ∧
    ∀ buf ∈ bufs, readIteration buf = some (dispatchSpec buf) ∧
      (dispatchSpec buf).length ≤ 1 := by
  have main : ∀ l : List (List Nat), (∀ buf ∈ l, 17 ≤ buf.length) →
      dispatchMany l = some ((l.map dispatchSpec).flatten) := by
    intro l
    induction l with
    | nil => intro _; simp [dispatchMany]
    | cons b rest ih =>
        intro hl
        have hb := hl b (List.mem_cons_self b rest)
        have hrest := fun buf hm => hl buf (List.mem_cons_of_mem b hm)
        simp [dispatchMany, readIteration_eq_dispatchSpec b hb, ih hrest]
  exact ⟨main bufs h, fun buf hm =>
    ⟨readIteration_eq_dispatchSpec buf (h buf hm),
     dispatchSpec_len_le_one buf⟩⟩

/-- Witness for C7 on a one-frame arrival sequence (an Event frame of 17
bytes `0x20`). -/
theorem dispatch_exactlyOne_inOrder_witness :
    dispatchMany [List.replicate 17 0x20] =
      some ((([List.replicate 17 0x20]).map dispatchSpec).flatten) :=
  (dispatch_exactlyOne_inOrder [List.replicate 17 0x20] (by simp)).1

/-- Claim C9: whenever the receive buffer is at least 17 bytes long, every
buffer access of one dispatcher iteration is in bounds: decoding is total
and no iteration faults on an index or slice out of range, whatever the
buffer contents. -/
theorem readIteration_total (buf : List Nat) (h : 17 ≤ buf.length) :
    (readIteration buf).isSome := by
  rw [readIteration_eq_dispatchSpec buf h]
  rfl

/-- Witness for C9 at a 17-byte all-zero buffer. -/
theorem readIteration_total_witness :
    (readIteration (List.replicate 17 0)).isSome :=
  readIteration_total (List.replicate 17 0) (by simp)

/-- Claim C8 counterexample: with the read failing fatally (device
detached) on a 17-byte zero buffer, the dispatcher iteration neither
terminates nor surfaces any error — it dispatches the buffer and continues
the loop, because the source discards the read's result entirely. -/
theorem read_failure_counterexample :
    readIterationWithErr (some ReadErr.detached) (List.replicate 17 0) =
      IterOutcome.continues [] ∧
    (readIterationWithErr (some ReadErr.detached)
        (List.replicate 17 0)).isTerminated = false := by
  constructor <;> rfl

/-- Claim C8 as amended: the dispatcher ignores the outcome of the
transport read entirely — for every read outcome, transient or fatal, the
iteration behaves exactly as if the read had succeeded, dispatching the
buffer, surfacing no error, and continuing the loop; it never terminates
because of a read error. -/
theorem read_failure_ignored (e : Option ReadErr) (buf : List Nat) :
    readIterationWithErr e buf = readIterationWithErr none buf ∧
    (readIterationWithErr e buf).isTerminated = false := by
  unfold readIterationWithErr
  cases readIteration buf <;> simp [IterOutcome.isTerminated]

set_option maxHeartbeats 1000000 in
/-- Claim C1: for every opcode of the section 6 wire table and all valid
field values, decoding the bytes produced by encoding the fields yields the
same opcode and fields back, every 16-bit field written and read
little-endian. -/
theorem decode_encode_roundtrip (f : Frame) (h : f.valid) :
    decodeFrame (encodeFrame f) = some f := by
  cases f with
  | setup =>
      simp [encodeFrame, decodeFrame, SetupFrame, OpSetup]
  | setupStatus =>
      simp [encodeFrame, decodeFrame, OpSetup, OpSetupStatus]
  | addKey i =>
      simp only [Frame.valid] at h
      simp [encodeFrame, decodeFrame, AddKeyFrame, toByteSlice, OpSetup,
        OpSetupStatus, OpAddKey, uint16LE_toByteSlice i h]
  | addKeyStatus i =>
      simp only [Frame.valid] at h
      simp [encodeFrame, decodeFrame, toByteSlice, OpSetup, OpSetupStatus,
        OpAddKey, OpAddKeyStatus, uint16LE_toByteSlice i h]
  | unprovisionedBeacon u =>
      simp only [Frame.valid] at h
      simp [encodeFrame, decodeFrame, OpSetup, OpSetupStatus, OpAddKey,
        OpAddKeyStatus, OpUnprovisionedBeacon, h,
        List.take_of_length_le h.le]
  | provision u =>
      simp only [Frame.valid] at h
      simp [encodeFrame, decodeFrame, ProvisionFrame, OpSetup, OpSetupStatus,
        OpAddKey, OpAddKeyStatus, OpUnprovisionedBeacon, OpProvision, h,
        List.take_of_length_le h.le]
  | nodeAdded a =>
      simp only [Frame.valid] at h
      simp [encodeFrame, decodeFrame, toByteSlice, OpSetup, OpSetupStatus,
        OpAddKey, OpAddKeyStatus, OpUnprovisionedBeacon, OpProvision,
        OpNodeAdded, uint16LE_toByteSlice a h]
  | configureNode a i =>
      obtain ⟨ha, hi⟩ := h
      simp [encodeFrame, decodeFrame, ConfigureNodeFrame, toByteSlice,
        OpSetup, OpSetupStatus, OpAddKey, OpAddKeyStatus,
        OpUnprovisionedBeacon, OpProvision, OpNodeAdded, OpConfigureNode,
        uint16LE_toByteSlice a ha, uint16LE_toByteSlice i hi]
  | configureNodeStatus =>
      simp [encodeFrame, decodeFrame, OpSetup, OpSetupStatus, OpAddKey,
        OpAddKeyStatus, OpUnprovisionedBeacon, OpProvision, OpNodeAdded,
        OpConfigureNode, OpConfigureNodeStatus]
  | sendMessage s a i =>
      obtain ⟨hs, ha, hi⟩ := h
      simp [encodeFrame, decodeFrame, SendMessageFrame, toByteSlice,
        OpSetup, OpSetupStatus, OpAddKey, OpAddKeyStatus,
        OpUnprovisionedBeacon, OpProvision, OpNodeAdded, OpConfigureNode,
        OpConfigureNodeStatus, OpSendMessage,
        uint16LE_toByteSlice a ha, uint16LE_toByteSlice i hi]
  | reset =>
      simp [encodeFrame, decodeFrame, ResetFrame, OpSetup, OpSetupStatus,
        OpAddKey, OpAddKeyStatus, OpUnprovisionedBeacon, OpProvision,
        OpNodeAdded, OpConfigureNode, OpConfigureNodeStatus, OpSendMessage,
        OpReset]
  | reboot =>
      simp [encodeFrame, decodeFrame, RebootFrame, OpSetup, OpSetupStatus,
        OpAddKey, OpAddKeyStatus, OpUnprovisionedBeacon, OpProvision,
        OpNodeAdded, OpConfigureNode, OpConfigureNodeStatus, OpSendMessage,
        OpReset, OpReboot]
  | nodeReset a =>
      simp only [Frame.valid] at h
      simp [encodeFrame, decodeFrame, ResetNodeFrame, toByteSlice, OpSetup,
        OpSetupStatus, OpAddKey, OpAddKeyStatus, OpUnprovisionedBeacon,
        OpProvision, OpNodeAdded, OpConfigureNode, OpConfigureNodeStatus,
        OpSendMessage, OpReset, OpReboot, OpNodeReset,
        uint16LE_toByteSlice a h]
  | state a s =>
      obtain ⟨ha, hs⟩ := h
      simp [encodeFrame, decodeFrame, toByteSlice, OpSetup, OpSetupStatus,
        OpAddKey, OpAddKeyStatus, OpUnprovisionedBeacon, OpProvision,
        OpNodeAdded, OpConfigureNode, OpConfigureNodeStatus, OpSendMessage,
        OpReset, OpReboot, OpNodeReset, OpState,
        uint16LE_toByteSlice a ha]
  | configureElem g n e i =>
      obtain ⟨hg, hn, he, hi⟩ := h
      simp [encodeFrame, decodeFrame, ConfigureElemFrame, toByteSlice,
        OpSetup, OpSetupStatus, OpAddKey, OpAddKeyStatus,
        OpUnprovisionedBeacon, OpProvision, OpNodeAdded, OpConfigureNode,
        OpConfigureNodeStatus, OpSendMessage, OpReset, OpReboot, OpNodeReset,
        OpState, OpConfigureElem, uint16LE_toByteSlice g hg,
        uint16LE_toByteSlice n hn, uint16LE_toByteSlice e he,
        uint16LE_toByteSlice i hi]
  | configureElemStatus =>
      simp [encodeFrame, decodeFrame, OpSetup, OpSetupStatus, OpAddKey,
        OpAddKeyStatus, OpUnprovisionedBeacon, OpProvision, OpNodeAdded,
        OpConfigureNode, OpConfigureNodeStatus, OpSendMessage, OpReset,
        OpReboot, OpNodeReset, OpState, OpConfigureElem,
        OpConfigureElemStatus]
  | sendRecallMessage s a i =>
      obtain ⟨hs, ha, hi⟩ := h
      simp [encodeFrame, decodeFrame, SendRecallMessageFrame, toByteSlice,
        OpSetup, OpSetupStatus, OpAddKey, OpAddKeyStatus,
        OpUnprovisionedBeacon, OpProvision, OpNodeAdded, OpConfigureNode,
        OpConfigureNodeStatus, OpSendMessage, OpReset, OpReboot, OpNodeReset,
        OpState, OpConfigureElem, OpConfigureElemStatus,
        OpSendRecallMessage, uint16LE_toByteSlice s hs,
        uint16LE_toByteSlice a ha, uint16LE_toByteSlice i hi]
  | sendStoreMessage s a i =>
      obtain ⟨hs, ha, hi⟩ := h
      simp [encodeFrame, decodeFrame, SendStoreMessageFrame, toByteSlice,
        OpSetup, OpSetupStatus, OpAddKey, OpAddKeyStatus,
        OpUnprovisionedBeacon, OpProvision, OpNodeAdded, OpConfigureNode,
        OpConfigureNodeStatus, OpSendMessage, OpReset, OpReboot, OpNodeReset,
        OpState, OpConfigureElem, OpConfigureElemStatus,
        OpSendRecallMessage, OpSendStoreMessage, uint16LE_toByteSlice s hs,
        uint16LE_toByteSlice a ha, uint16LE_toByteSlice i hi]
  | sendDeleteMessage s a i =>
      obtain ⟨hs, ha, hi⟩ := h
      simp [encodeFrame, decodeFrame, SendDeleteMessageFrame, toByteSlice,
        OpSetup, OpSetupStatus, OpAddKey, OpAddKeyStatus,
        OpUnprovisionedBeacon, OpProvision, OpNodeAdded, OpConfigureNode,
        OpConfigureNodeStatus, OpSendMessage, OpReset, OpReboot, OpNodeReset,
        OpState, OpConfigureElem, OpConfigureElemStatus,
        OpSendRecallMessage, OpSendStoreMessage, OpSendDeleteMessage,
        uint16LE_toByteSlice s hs, uint16LE_toByteSlice a ha,
        uint16LE_toByteSlice i hi]
  | sendBindMessage s a i =>
      obtain ⟨hs, ha, hi⟩ := h
      simp [encodeFrame, decodeFrame, SendBindMessageFrame, toByteSlice,
        OpSetup, OpSetupStatus, OpAddKey, OpAddKeyStatus,
        OpUnprovisionedBeacon, OpProvision, OpNodeAdded, OpConfigureNode,
        OpConfigureNodeStatus, OpSendMessage, OpReset, OpReboot, OpNodeReset,
        OpState, OpConfigureElem, OpConfigureElemStatus,
        OpSendRecallMessage, OpSendStoreMessage, OpSendDeleteMessage,
        OpSendBindMessage, uint16LE_toByteSlice s hs,
        uint16LE_toByteSlice a ha, uint16LE_toByteSlice i hi]
  | event a =>
      simp only [Frame.valid] at h
      simp [encodeFrame, decodeFrame, toByteSlice, OpSetup, OpSetupStatus,
        OpAddKey, OpAddKeyStatus, OpUnprovisionedBeacon, OpProvision,
        OpNodeAdded, OpConfigureNode, OpConfigureNodeStatus, OpSendMessage,
        OpReset, OpReboot, OpNodeReset, OpState, OpConfigureElem,
        OpConfigureElemStatus, OpSendRecallMessage, OpSendStoreMessage,
        OpSendDeleteMessage, OpSendBindMessage, OpEvent,
        uint16LE_toByteSlice a h]

/-- Witness for C1 at `SendMessage(state 0, addr 10, appIdx 0)`. -/
theorem decode_encode_roundtrip_witness :
    (Frame.sendMessage 0 10 0).valid ∧
      decodeFrame (encodeFrame (Frame.sendMessage 0 10 0)) =
        some (Frame.sendMessage 0 10 0) :=
  ⟨by decide, decode_encode_roundtrip (Frame.sendMessage 0 10 0) (by decide)⟩

end GoMesh
